import Mathlib

/-!
Shallow embedding of the multi-tenant notes backend (models, auth middleware,
note and tenant controllers, token codec wrapper).  Mongo documents become
Lean structures, the document store becomes explicit lists passed to each
operation, and each Express handler becomes a function from its inputs to a
typed outcome (plus the updated store where the handler writes).
-/

namespace SaaSNotes

/-- Subscription plan of a tenant: the `subscription.plan` enum
`["free", "pro"]` of `src/models/Tenant.js`. -/
inductive Plan where
  | free
  | pro
deriving DecidableEq, Repr

/-- User role: the `role` enum `["admin", "member"]` of the User model. -/
inductive Role where
  | admin
  | member
deriving DecidableEq, Repr

/-- Tenant document (`src/models/Tenant.js`).  `maxNotes` models
`settings.max_notes` (a JS number, default 3; `-1` after a pro upgrade),
hence `Int`. -/
structure Tenant where
  id : Nat
  slug : String
  plan : Plan
  maxNotes : Int
deriving DecidableEq, Repr

/-- User document (the User model referenced throughout `src`): role,
owning-tenant reference and the soft-delete `isActive` flag. -/
structure User where
  id : Nat
  email : String
  role : Role
  tenantId : Nat
  isActive : Bool
deriving DecidableEq, Repr

/-- Note document (`src/models/Note.js`): author and tenant references,
payload fields and the `isArchived` flag. -/
structure Note where
  id : Nat
  title : String
  content : String
  author : Nat
  tenant : Nat
  tags : List String
  isArchived : Bool
deriving DecidableEq, Repr

/-- Lookup `User.findById`: first user with the given `_id`. -/
def findUserById (users : List User) (uid : Nat) : Option User :=
  users.find? (fun u => u.id == uid)

/-- Lookup `Tenant.findById` (via `populate("tenant")`). -/
def findTenantById (tenants : List Tenant) (tid : Nat) : Option Tenant :=
  tenants.find? (fun t => t.id == tid)

/-- Lookup `Tenant.findOne({ slug })`. -/
def findTenantBySlug (tenants : List Tenant) (slug : String) : Option Tenant :=
  tenants.find? (fun t => t.slug == slug)

/-- The store query `Note.countDocuments({ tenant: this._id })` used by
`canCreateNote` in `src/models/Tenant.js`: it filters by tenant only — no
`isArchived` condition. -/
def countNotesForTenant (notes : List Note) (tid : Nat) : Nat :=
  (notes.filter (fun n => n.tenant == tid)).length

/-- `tenantSchema.methods.canCreateNote` in `src/models/Tenant.js`:
pro tenants short-circuit to `true`; otherwise the tenant's note count is
compared against `settings.max_notes` with JS `<`. -/
def canCreateNote (t : Tenant) (notes : List Note) : Bool :=
  if t.plan = Plan.pro then true
  else decide ((countNotesForTenant notes t.id : Int) < t.maxNotes)

/-- `noteSchema.methods.canModify(userId, userRole)` in `src/models/Note.js`:
`userRole === "admin"` short-circuits to `true`; otherwise it compares the
note's `author` reference with `userId`.  No tenant information is passed in
or consulted. -/
def canModify (n : Note) (userId : Nat) (userRole : Role) : Bool :=
  if userRole = Role.admin then true
  else decide (n.author = userId)

/-- The spec's description of the ownership policy, written from its words
for comparison with the implementation: an admin in the note's tenant may
always modify; otherwise only the author may.  The spec passes the whole
acting user, so the tenant comparison is expressible here. -/
def canModifySpec (n : Note) (u : User) : Bool :=
  if u.role = Role.admin ∧ u.tenantId = n.tenant then true
  else decide (n.author = u.id)

/-! ## Token codec (`src/utils/jwt.js` over the `jsonwebtoken` library)

The signing library is an external dependency; its documented behaviour is
modelled abstractly: a token records the claim payload, issue/expiry times,
the issuer and the key it was signed with.  `verify` succeeds exactly when
the key matches and the clock has not reached `exp` (the library throws
`TokenExpiredError` once the clock is at or past `exp`; the wrapper turns
every failure into the single error "Invalid token"). -/

/-- Claim set `{userId, email, role, tenantId, tenantSlug}` of
`generateAccessToken`. -/
structure Claims where
  userId : Nat
  email : String
  role : Role
  tenantId : Nat
  tenantSlug : String
deriving DecidableEq, Repr

/-- A signed token: payload plus the time-box and signing key. -/
structure Token where
  claims : Claims
  iat : Nat
  exp : Nat
  iss : String
  signedWith : String
deriving DecidableEq, Repr

/-- `generateToken` in `src/utils/jwt.js`: signs the payload with the
configured secret, issuer `"notes-saas"`, and expiry `now + expiresIn`. -/
def generateToken (payload : Claims) (secret : String) (expiresIn : Nat)
    (now : Nat) : Token :=
  { claims := payload
    iat := now
    exp := now + expiresIn
    iss := "notes-saas"
    signedWith := secret }

/-- `verifyToken` in `src/utils/jwt.js`: `jwt.verify(token, secret)` checks
the signature and expiry (no issuer option is passed, so `iss` is not
checked); any failure is rethrown as `"Invalid token"`. -/
def verifyToken (t : Token) (secret : String) (now : Nat) :
    Except String Claims :=
  if t.signedWith ≠ secret then Except.error "Invalid token"
  else if t.exp ≤ now then Except.error "Invalid token"
  else Except.ok t.claims

/-- `generateAccessToken` in `src/utils/jwt.js`, applied to a user whose
`tenant` field is populated: the claim set drawn from the user and its
tenant document. -/
def accessClaims (u : User) (t : Tenant) : Claims :=
  { userId := u.id
    email := u.email
    role := u.role
    tenantId := t.id
    tenantSlug := t.slug }

/-! ## authenticate (`src/unnamed/part_003`, the auth middleware)

`req.header("Authorization")?.replace("Bearer ", "")` removes the FIRST
occurrence of the substring `"Bearer "` (JS `String.replace` with a string
pattern replaces only the first match); an absent header propagates
`undefined` and an empty result is falsy, so both hit the no-token branch. -/

/-- Remove the first occurrence of `pat` from a character list, leaving the
list unchanged when `pat` does not occur: JS `s.replace(pat, "")`. -/
def removeFirstOcc (pat : List Char) : List Char → List Char
  | [] => []
  | c :: cs =>
    if pat.isPrefixOf (c :: cs) then List.drop pat.length (c :: cs)
    else c :: removeFirstOcc pat cs

/-- JS `header.replace("Bearer ", "")` on a string. -/
def stripBearer (s : String) : String :=
  String.mk (removeFirstOcc "Bearer ".data s.data)

/-- Token extraction inside `authenticate`: `undefined` header or an empty
stripped value is falsy and yields no token. -/
def extractHeaderToken (header : Option String) : Option String :=
  match header with
  | none => none
  | some h =>
    let t := stripBearer h
    if t = "" then none else some t

/-- Outcome of the `authenticate` middleware: the four 401 rejections, or
success attaching `req.user` and `req.tenant` (the populated tenant may be
absent, as `populate` yields null on a dangling reference). -/
inductive AuthOutcome where
  | noToken
  | invalidToken
  | userNotFound
  | deactivated
  | ok (u : User) (t : Option Tenant)
deriving DecidableEq, Repr

/-- HTTP status the middleware responds with: every rejection is 401;
success calls `next()` (rendered 200 here). -/
def AuthOutcome.status : AuthOutcome → Nat
  | .noToken => 401
  | .invalidToken => 401
  | .userNotFound => 401
  | .deactivated => 401
  | .ok _ _ => 200

/-- `authenticate` in `src/unnamed/part_003`.  `decode` stands for
`jwt.verify` with the process secret (`none` = throw): extraction, decode,
`User.findById(decoded.userId).populate("tenant")`, the `isActive` gate,
then attaching user and tenant to the request context. -/
def authenticate (decode : String → Option Claims) (users : List User)
    (tenants : List Tenant) (header : Option String) : AuthOutcome :=
  match extractHeaderToken header with
  | none => AuthOutcome.noToken
  | some tok =>
    match decode tok with
    | none => AuthOutcome.invalidToken
    | some c =>
      match findUserById users c.userId with
      | none => AuthOutcome.userNotFound
      | some u =>
        if u.isActive = false then AuthOutcome.deactivated
        else AuthOutcome.ok u (findTenantById tenants u.tenantId)

/-! ## validateTenant (`src/unnamed/part_003`) -/

/-- Outcome of the `validateTenant` middleware.  `passUser` is `next()` with
the user branch taken (nothing new attached); `passTenant` is `next()` after
attaching the slug-resolved tenant to the context. -/
inductive TenantCheck where
  | badRequest
  | forbidden
  | notFound
  | passUser
  | passTenant (t : Tenant)
deriving DecidableEq, Repr

/-- HTTP status of each `validateTenant` outcome. -/
def TenantCheck.status : TenantCheck → Nat
  | .badRequest => 400
  | .forbidden => 403
  | .notFound => 404
  | .passUser => 200
  | .passTenant _ => 200

/-- `validateTenant` in `src/unnamed/part_003`.  `ctxUser` is the attached
`req.user` together with its populated tenant document (the code reads
`req.user.tenant.slug`).  With a user attached the path slug must equal the
user's tenant slug (plain string equality); without one the tenant is
resolved by slug and attached. -/
def validateTenant (slugParam : Option String)
    (ctxUser : Option (User × Tenant)) (tenants : List Tenant) : TenantCheck :=
  match slugParam with
  | none => TenantCheck.badRequest
  | some slug =>
    match ctxUser with
    | some (_, ut) =>
      if ut.slug ≠ slug then TenantCheck.forbidden else TenantCheck.passUser
    | none =>
      match findTenantBySlug tenants slug with
      | none => TenantCheck.notFound
      | some t => TenantCheck.passTenant t

/-! ## Note model hooks and note controller (`src/models/Note.js`,
`src/controllers/noteController.js`) -/

/-- The `noteSchema.pre("save")` hook for a new document: the author must
exist and the author's tenant must equal the note's tenant, else the save
errors. -/
def validateNewNote (users : List User) (n : Note) : Except String Unit :=
  match findUserById users n.author with
  | none => Except.error "Author not found"
  | some u =>
    if u.tenantId ≠ n.tenant then
      Except.error "Note tenant must match author tenant"
    else Except.ok ()

/-- The tenant-scoped lookup `Note.findOne({ _id, tenant })` used by
`getNote`, `updateNote` and `deleteNote`. -/
def findNoteInTenant (notes : List Note) (noteId tenantId : Nat) :
    Option Note :=
  notes.find? (fun n => n.id == noteId && n.tenant == tenantId)

/-- Request body of note creation, after the express-validator `trim`
sanitizers have run (`title`, `content` required; `tags` defaults to `[]`). -/
structure NoteBody where
  title : String
  content : String
  tags : List String
deriving DecidableEq, Repr

/-- The `POST /notes` validator chain of `src/routes/notes.js`: title length
1–200 and content length 1–10000 (tags already array-typed here). -/
def validNoteBody (b : NoteBody) : Bool :=
  decide (1 ≤ b.title.length) && decide (b.title.length ≤ 200) &&
  decide (1 ≤ b.content.length) && decide (b.content.length ≤ 10000)

/-- Request body of note update: each field optional, only present fields are
written (`if (x !== undefined) updateData.x = x`). -/
structure UpdateBody where
  title : Option String
  content : Option String
  tags : Option (List String)
deriving DecidableEq, Repr

/-- The `PUT /notes/:id` validator chain: each supplied field must satisfy
the same length bounds as on creation. -/
def validUpdateBody (b : UpdateBody) : Bool :=
  (match b.title with
   | none => true
   | some s => decide (1 ≤ s.length) && decide (s.length ≤ 200)) &&
  (match b.content with
   | none => true
   | some s => decide (1 ≤ s.length) && decide (s.length ≤ 10000))

/-- The write set of `updateNote`: only `title`, `content` and `tags` can
appear in `updateData`; absent fields keep their stored values. -/
def applyUpdate (n : Note) (b : UpdateBody) : Note :=
  { n with
    title := b.title.getD n.title
    content := b.content.getD n.content
    tags := b.tags.getD n.tags }

/-- `Note.findByIdAndUpdate(req.params.id, updateData)`: the write is keyed
by id alone (the tenant filter lives in the preceding lookup). -/
def updateNoteById (notes : List Note) (noteId : Nat) (b : UpdateBody) :
    List Note :=
  notes.map (fun m => if m.id == noteId then applyUpdate m b else m)

/-- `Note.findByIdAndDelete(req.params.id)`. -/
def deleteNoteById (notes : List Note) (noteId : Nat) : List Note :=
  notes.filter (fun m => m.id != noteId)

/-- Outcome of a single-note handler: validation failure (400), tenant-scoped
lookup miss (404), ownership rejection (403), or success. -/
inductive NoteOutcome where
  | invalid
  | notFound
  | forbidden
  | ok (n : Note)
deriving DecidableEq, Repr

/-- HTTP status of each single-note outcome. -/
def NoteOutcome.status : NoteOutcome → Nat
  | .invalid => 400
  | .notFound => 404
  | .forbidden => 403
  | .ok _ => 200

/-- `getNote` in `src/controllers/noteController.js`: tenant-scoped lookup,
404 when invisible, else return the note. -/
def getNote (notes : List Note) (noteId tenantId : Nat) : NoteOutcome :=
  match findNoteInTenant notes noteId tenantId with
  | none => NoteOutcome.notFound
  | some n => NoteOutcome.ok n

/-- `updateNote` in `src/controllers/noteController.js`: validation, then the
tenant-scoped lookup, then `canModify`, then the id-keyed write of the
title/content/tags fields.  Returns the outcome and the note store after the
handler. -/
def updateNote (notes : List Note) (noteId tenantId : Nat) (actor : User)
    (b : UpdateBody) : NoteOutcome × List Note :=
  if validUpdateBody b = false then (NoteOutcome.invalid, notes)
  else
    match findNoteInTenant notes noteId tenantId with
    | none => (NoteOutcome.notFound, notes)
    | some n =>
      if canModify n actor.id actor.role = false then
        (NoteOutcome.forbidden, notes)
      else (NoteOutcome.ok (applyUpdate n b), updateNoteById notes noteId b)

/-- `deleteNote` in `src/controllers/noteController.js`: tenant-scoped
lookup, `canModify`, then the id-keyed delete. -/
def deleteNote (notes : List Note) (noteId tenantId : Nat) (actor : User) :
    NoteOutcome × List Note :=
  match findNoteInTenant notes noteId tenantId with
  | none => (NoteOutcome.notFound, notes)
  | some n =>
    if canModify n actor.id actor.role = false then
      (NoteOutcome.forbidden, notes)
    else (NoteOutcome.ok n, deleteNoteById notes noteId)

/-- Outcome of `createNote`: validation failure (400), subscription-gate
rejection (403, quota), a pre-save hook error (500), or creation (201). -/
inductive CreateOutcome where
  | invalid
  | quotaForbidden
  | saveError (msg : String)
  | created (n : Note)
deriving DecidableEq, Repr

/-- HTTP status of each creation outcome. -/
def CreateOutcome.status : CreateOutcome → Nat
  | .invalid => 400
  | .quotaForbidden => 403
  | .saveError _ => 500
  | .created _ => 201

/-- `createNote` in `src/controllers/noteController.js`: validation, then
`req.tenant.canCreateNote()` (the subscription gate), and only then
`Note.create` with `author := req.user._id` and `tenant := req.tenant._id`,
which runs the pre-save hook.  Returns the outcome and the note store after
the handler. -/
def createNote (t : Tenant) (actor : User) (users : List User)
    (notes : List Note) (b : NoteBody) (newId : Nat) :
    CreateOutcome × List Note :=
  if validNoteBody b = false then (CreateOutcome.invalid, notes)
  else if canCreateNote t notes = false then
    (CreateOutcome.quotaForbidden, notes)
  else
    let n : Note :=
      { id := newId
        title := b.title
        content := b.content
        author := actor.id
        tenant := t.id
        tags := b.tags
        isArchived := false }
    match validateNewNote users n with
    | Except.error e => (CreateOutcome.saveError e, notes)
    | Except.ok _ => (CreateOutcome.created n, notes ++ [n])

/-! ## Tenant controller (`src/controllers/tenantController.js`) -/

/-- The tenant-scoped user lookup `User.findOne({ _id, tenant })`. -/
def findUserInTenant (users : List User) (uid tid : Nat) : Option User :=
  users.find? (fun u => u.id == uid && u.tenantId == tid)

/-- `["admin", "member"].includes(role)` together with the assignment target:
the request-body role string, parsed. -/
def parseRole (s : String) : Option Role :=
  if s = "admin" then some Role.admin
  else if s = "member" then some Role.member
  else none

/-- Outcome of the admin user-management handlers (`updateUserRole`,
`deactivateUser`). -/
inductive AdminOutcome where
  | invalidRole
  | tenantNotFound
  | forbidden
  | targetNotFound
  | selfProtect
  | ok
deriving DecidableEq, Repr

/-- HTTP status of each user-management outcome (`selfProtect` and
`invalidRole` are both 400-class InvalidRequest responses). -/
def AdminOutcome.status : AdminOutcome → Nat
  | .invalidRole => 400
  | .tenantNotFound => 404
  | .forbidden => 403
  | .targetNotFound => 404
  | .selfProtect => 400
  | .ok => 200

/-- `updateUserRole` in `src/controllers/tenantController.js`: role-string
validation, slug resolution, the acting user's tenant and role checks, the
tenant-scoped target lookup, the self-demotion guard
(`target._id === req.user._id && role !== "admin"`), then the role write.
Returns the outcome and the user store after the handler. -/
def updateUserRole (tenants : List Tenant) (users : List User) (acting : User)
    (slug : String) (targetId : Nat) (roleBody : String) :
    AdminOutcome × List User :=
  match parseRole roleBody with
  | none => (AdminOutcome.invalidRole, users)
  | some newRole =>
    match findTenantBySlug tenants slug with
    | none => (AdminOutcome.tenantNotFound, users)
    | some t =>
      if acting.tenantId ≠ t.id then (AdminOutcome.forbidden, users)
      else if acting.role ≠ Role.admin then (AdminOutcome.forbidden, users)
      else
        match findUserInTenant users targetId t.id with
        | none => (AdminOutcome.targetNotFound, users)
        | some target =>
          if target.id = acting.id ∧ newRole ≠ Role.admin then
            (AdminOutcome.selfProtect, users)
          else
            (AdminOutcome.ok,
             users.map (fun v =>
               if v.id == target.id then { v with role := newRole } else v))

/-- `deactivateUser` in `src/controllers/tenantController.js`: slug
resolution, the combined tenant-and-role check, the tenant-scoped target
lookup, the self-deactivation guard, then the `isActive := false` write. -/
def deactivateUser (tenants : List Tenant) (users : List User) (acting : User)
    (slug : String) (targetId : Nat) : AdminOutcome × List User :=
  match findTenantBySlug tenants slug with
  | none => (AdminOutcome.tenantNotFound, users)
  | some t =>
    if acting.tenantId ≠ t.id ∨ acting.role ≠ Role.admin then
      (AdminOutcome.forbidden, users)
    else
      match findUserInTenant users targetId t.id with
      | none => (AdminOutcome.targetNotFound, users)
      | some target =>
        if target.id = acting.id then (AdminOutcome.selfProtect, users)
        else
          (AdminOutcome.ok,
           users.map (fun v =>
             if v.id == target.id then { v with isActive := false } else v))

/-- The token value `authenticate` works with for a given Authorization
header: the empty string when the header is absent, otherwise the header
after Bearer-stripping.  (`authenticate` treats an empty value as no
token; an empty string is never a decodable JWT.) -/
def headerTokenValue (header : Option String) : String :=
  match header with
  | none => ""
  | some h => stripBearer h

/-! ## Sample fixtures (the seeded tenants and users of the README) -/

/-- Fixture: the `acme` tenant on the free plan with the default limit 3. -/
def acme : Tenant := { id := 1, slug := "acme", plan := Plan.free, maxNotes := 3 }

/-- Fixture: the `globex` tenant after a pro upgrade. -/
def globex : Tenant := { id := 2, slug := "globex", plan := Plan.pro, maxNotes := -1 }

/-- Fixture: admin user of `acme`. -/
def adminAcme : User :=
  { id := 1, email := "admin@acme.test", role := Role.admin, tenantId := 1,
    isActive := true }

/-- Fixture: member user of `acme`. -/
def memberAcme : User :=
  { id := 2, email := "user@acme.test", role := Role.member, tenantId := 1,
    isActive := true }

/-- Fixture: admin user of `globex`. -/
def adminGlobex : User :=
  { id := 3, email := "admin@globex.test", role := Role.admin, tenantId := 2,
    isActive := true }

/-- Fixture: an `acme` note authored by the acme admin. -/
def acmeNote (i : Nat) : Note :=
  { id := i, title := "note", content := "body", author := 1, tenant := 1,
    tags := [], isArchived := false }

/-- Fixture: three existing `acme` notes (the free-plan limit). -/
def acmeNotes3 : List Note := [acmeNote 11, acmeNote 12, acmeNote 13]

/-- Fixture: a `globex` note authored by the globex admin. -/
def globexNote : Note :=
  { id := 21, title := "gnote", content := "gbody", author := 3, tenant := 2,
    tags := [], isArchived := false }

/-- Fixture: the claim set of the acme admin's access token. -/
def claimsAcmeAdmin : Claims := accessClaims adminAcme acme

/-- Fixture: a decoder standing for `jwt.verify` with the process secret —
it accepts exactly the string `"goodtok"`. -/
def decodeFix : String → Option Claims :=
  fun s => if s = "goodtok" then some claimsAcmeAdmin else none

/-! ## Helper lemmas -/

/-- The note count behind `canCreateNote` ignores the `isArchived` flag:
flipping it on every stored note leaves the count unchanged. -/
theorem countNotesForTenant_setArchived (notes : List Note) (tid : Nat)
    (b : Bool) :
    countNotesForTenant (notes.map (fun n => { n with isArchived := b })) tid
      = countNotesForTenant notes tid := by
  unfold countNotesForTenant
  induction notes with
  | nil => rfl
  | cons n ns ih =>
    by_cases h : (n.tenant == tid) = true
    · simpa [List.filter_cons, h] using ih
    · simpa [List.filter_cons, h] using ih

/-! ## Claim theorems -/

/-- Claim C1: `canCreateNote` returns true for every pro-plan tenant
regardless of count; for a free-plan tenant it returns true iff the count of
all of the tenant's notes (archived ones included — the count is insensitive
to the archived flag) is strictly below `max_notes`, so it is false at
count = max_notes and true at count = max_notes − 1. -/
theorem canCreateNote_spec (t : Tenant) (notes : List Note) :
    (t.plan = Plan.pro → canCreateNote t notes = true)
    ∧ (t.plan = Plan.free →
        (canCreateNote t notes = true ↔
          (countNotesForTenant notes t.id : Int) < t.maxNotes))
    ∧ (t.plan = Plan.free →
        (countNotesForTenant notes t.id : Int) = t.maxNotes →
        canCreateNote t notes = false)
    ∧ (t.plan = Plan.free →
        (countNotesForTenant notes t.id : Int) = t.maxNotes - 1 →
        canCreateNote t notes = true)
    ∧ (∀ b : Bool,
        canCreateNote t (notes.map (fun n => { n with isArchived := b }))
          = canCreateNote t notes) := by
  refine ⟨?_, ?_, ?_, ?_, ?_⟩
  · intro hp
    simp [canCreateNote, hp]
  · intro hf
    simp [canCreateNote, hf]
  · intro hf hc
    simp [canCreateNote, hf, decide_eq_false_iff_not, not_lt]
    omega
  · intro hf hc
    have hlt : (countNotesForTenant notes t.id : Int) < t.maxNotes := by omega
    simp [canCreateNote, hf, hlt]
  · intro b
    simp [canCreateNote, countNotesForTenant_setArchived]

/-- Witness for C1 on the seeded data: the free `acme` tenant with three
notes is blocked, with two notes it may create, and the pro `globex` tenant
always may. -/
theorem canCreateNote_spec_witness :
    canCreateNote acme acmeNotes3 = false
    ∧ canCreateNote acme [acmeNote 11, acmeNote 12] = true
    ∧ canCreateNote globex [] = true := by
  refine ⟨?_, ?_, ?_⟩
  · exact (canCreateNote_spec acme acmeNotes3).2.2.1 rfl (by decide)
  · exact (canCreateNote_spec acme [acmeNote 11, acmeNote 12]).2.2.2.1 rfl
      (by decide)
  · exact (canCreateNote_spec globex []).1 rfl

/-- Claim C2 counterexample: `canModify` consults no tenant information, so
for a cross-tenant admin non-author (here the globex admin against an acme
note) the implementation returns true while the claimed characterisation —
true exactly when (admin ∧ same tenant) or author — demands false. -/
theorem canModify_claim_counterexample :
    canModify (acmeNote 11) adminGlobex.id adminGlobex.role = true
    ∧ canModifySpec (acmeNote 11) adminGlobex = false := by decide

/-- Claim C2 (amended): `canModify(note, userId, userRole)` returns true iff
the role is admin or the user is the note's author; the note's tenant is not
consulted (tenant isolation comes from tenant-pre-filtered lookups).  In
particular a member who is not the author is refused. -/
theorem canModify_spec (n : Note) (userId : Nat) (r : Role) :
    (canModify n userId r = true ↔ (r = Role.admin ∨ n.author = userId))
    ∧ (r = Role.admin → canModify n userId r = true)
    ∧ (r = Role.member → n.author ≠ userId →
        canModify n userId r = false) := by
  refine ⟨?_, ?_, ?_⟩
  · cases r <;> simp [canModify]
  · intro h
    simp [canModify, h]
  · intro h hne
    simp [canModify, h, hne]

/-- Witness for C2 (amended): the acme admin may modify the acme member's
note; the acme member may not modify the admin's note. -/
theorem canModify_spec_witness :
    canModify (acmeNote 11) adminAcme.id adminAcme.role = true
    ∧ canModify (acmeNote 11) memberAcme.id memberAcme.role = false := by
  constructor
  · exact (canModify_spec (acmeNote 11) adminAcme.id adminAcme.role).2.1 rfl
  · exact (canModify_spec (acmeNote 11) memberAcme.id memberAcme.role).2.2 rfl
      (by decide)

/-- Claim C3: with a user attached, `validateTenant` answers Forbidden
exactly when the path slug differs from the user's tenant slug under plain
string equality and passes otherwise; with no user attached it resolves the
tenant by slug lookup, answering NotFound exactly when the lookup misses and
otherwise passing with the tenant attached. -/
theorem validateTenant_spec (s : String) (ctxUser : Option (User × Tenant))
    (tenants : List Tenant) :
    (∀ u ut, ctxUser = some (u, ut) →
      ((validateTenant (some s) ctxUser tenants = TenantCheck.forbidden ↔
          ut.slug ≠ s)
        ∧ (validateTenant (some s) ctxUser tenants = TenantCheck.passUser ↔
            ut.slug = s)))
    ∧ (ctxUser = none →
      ((validateTenant (some s) ctxUser tenants = TenantCheck.notFound ↔
          findTenantBySlug tenants s = none)
        ∧ (∀ t, validateTenant (some s) ctxUser tenants
              = TenantCheck.passTenant t ↔
            findTenantBySlug tenants s = some t))) := by
  constructor
  · rintro u ut rfl
    by_cases h : ut.slug = s <;> simp [validateTenant, h]
  · rintro rfl
    cases hf : findTenantBySlug tenants s <;> simp [validateTenant, hf]

/-- Witness for C3: the acme member passes for slug `"acme"`, is refused for
`"globex"` and for the case-variant `"Acme"`; unauthenticated, slug `"acme"`
resolves and attaches the tenant while `"initech"` is NotFound. -/
theorem validateTenant_spec_witness :
    validateTenant (some "acme") (some (memberAcme, acme)) [acme, globex]
      = TenantCheck.passUser
    ∧ validateTenant (some "globex") (some (memberAcme, acme)) [acme, globex]
      = TenantCheck.forbidden
    ∧ validateTenant (some "Acme") (some (memberAcme, acme)) [acme, globex]
      = TenantCheck.forbidden
    ∧ validateTenant (some "acme") none [acme, globex]
      = TenantCheck.passTenant acme
    ∧ validateTenant (some "initech") none [acme, globex]
      = TenantCheck.notFound := by
  refine ⟨?_, ?_, ?_, ?_, ?_⟩
  · exact (((validateTenant_spec "acme" (some (memberAcme, acme))
      [acme, globex]).1 memberAcme acme rfl).2).mpr (by decide)
  · exact (((validateTenant_spec "globex" (some (memberAcme, acme))
      [acme, globex]).1 memberAcme acme rfl).1).mpr (by decide)
  · exact (((validateTenant_spec "Acme" (some (memberAcme, acme))
      [acme, globex]).1 memberAcme acme rfl).1).mpr (by decide)
  · exact (((validateTenant_spec "acme" none [acme, globex]).2 rfl).2
      acme).mpr (by decide)
  · exact (((validateTenant_spec "initech" none [acme, globex]).2 rfl).1).mpr
      (by decide)

/-- Claim C4: `authenticate` answers 401 exactly when the header yields no
token, the token fails to decode, the decoded user id resolves to no user,
or the resolved user is inactive; otherwise it passes the request forward
with the resolved user and that user's tenant attached. -/
theorem authenticate_spec (decode : String → Option Claims)
    (users : List User) (tenants : List Tenant) (header : Option String) :
    ((authenticate decode users tenants header).status = 401 ↔
      (extractHeaderToken header = none
        ∨ ∃ tok, extractHeaderToken header = some tok ∧
            (decode tok = none
              ∨ ∃ c, decode tok = some c ∧
                  (findUserById users c.userId = none
                    ∨ ∃ u, findUserById users c.userId = some u ∧
                        u.isActive = false))))
    ∧ (∀ u t, authenticate decode users tenants header = AuthOutcome.ok u t →
        ∃ tok c, extractHeaderToken header = some tok
          ∧ decode tok = some c
          ∧ findUserById users c.userId = some u
          ∧ u.isActive = true
          ∧ t = findTenantById tenants u.tenantId) := by
  unfold authenticate
  cases hex : extractHeaderToken header with
  | none => simp [AuthOutcome.status]
  | some tok =>
    cases hdec : decode tok with
    | none => simp [AuthOutcome.status, hdec]
    | some c =>
      cases hu : findUserById users c.userId with
      | none => simp [AuthOutcome.status, hdec, hu]
      | some u =>
        cases hact : u.isActive with
        | false => simp [AuthOutcome.status, hdec, hu, hact]
        | true =>
          constructor
          · simp [AuthOutcome.status, hdec, hu, hact]
          · intro u' t' h
            simp only [hdec, hu, hact, Bool.true_eq_false, if_false,
              AuthOutcome.ok.injEq] at h
            obtain ⟨h1, h2⟩ := h
            subst h1
            exact ⟨tok, c, rfl, hdec, hu, hact, h2.symm⟩

/-- Witness for C4: with the fixture decoder, a good bearer token resolves
the acme admin and attaches the acme tenant. -/
theorem authenticate_spec_witness :
    ∃ tok c, extractHeaderToken (some "Bearer goodtok") = some tok
      ∧ decodeFix tok = some c
      ∧ findUserById [adminAcme, memberAcme] c.userId = some adminAcme
      ∧ adminAcme.isActive = true
      ∧ some acme = findTenantById [acme, globex] adminAcme.tenantId :=
  (authenticate_spec decodeFix [adminAcme, memberAcme] [acme, globex]
    (some "Bearer goodtok")).2 adminAcme (some acme) (by decide)

/-- Claim C5: the read, update and delete handlers fetch the note
pre-filtered by the requester's tenant id, so a stored note of another
tenant yields NotFound for every acting user — never Forbidden — and the
store is left untouched. -/
theorem crossTenantNote_notFound (notes : List Note) (n : Note) (tid : Nat)
    (actor : User) (b : UpdateBody)
    (_hmem : n ∈ notes) (hten : n.tenant ≠ tid)
    (huniq : ∀ m ∈ notes, m.id = n.id → m = n) :
    getNote notes n.id tid = NoteOutcome.notFound
    ∧ (validUpdateBody b = true →
        updateNote notes n.id tid actor b = (NoteOutcome.notFound, notes))
    ∧ (updateNote notes n.id tid actor b).1 ≠ NoteOutcome.forbidden
    ∧ deleteNote notes n.id tid actor = (NoteOutcome.notFound, notes) := by
  have hfind : findNoteInTenant notes n.id tid = none := by
    refine List.find?_eq_none.mpr ?_
    intro m hm
    simp only [Bool.and_eq_true, beq_iff_eq, not_and]
    intro hid
    exact fun htn => hten (huniq m hm hid ▸ htn)
  refine ⟨?_, ?_, ?_, ?_⟩
  · simp [getNote, hfind]
  · intro hb
    simp [updateNote, hb, hfind]
  · cases hvb : validUpdateBody b <;>
      simp [updateNote, hvb, hfind]
  · simp [deleteNote, hfind]

/-- Witness for C5: the globex note is invisible to requests scoped to the
acme tenant, for both the acme admin and an arbitrary update body. -/
theorem crossTenantNote_notFound_witness :
    getNote (acmeNotes3 ++ [globexNote]) globexNote.id acme.id
      = NoteOutcome.notFound
    ∧ (validUpdateBody ⟨some "x", none, none⟩ = true →
        updateNote (acmeNotes3 ++ [globexNote]) globexNote.id acme.id
          adminAcme ⟨some "x", none, none⟩
          = (NoteOutcome.notFound, acmeNotes3 ++ [globexNote]))
    ∧ (updateNote (acmeNotes3 ++ [globexNote]) globexNote.id acme.id
        adminAcme ⟨some "x", none, none⟩).1 ≠ NoteOutcome.forbidden
    ∧ deleteNote (acmeNotes3 ++ [globexNote]) globexNote.id acme.id adminAcme
      = (NoteOutcome.notFound, acmeNotes3 ++ [globexNote]) :=
  crossTenantNote_notFound (acmeNotes3 ++ [globexNote]) globexNote acme.id
    adminAcme ⟨some "x", none, none⟩ (by decide) (by decide) (by decide)

/-- Claim C6: a new note saves successfully exactly when its author exists
and the author's tenant equals the note's tenant (the pre-save hook); the
update write set touches only title, content and tags — author, tenant, id
and the archived flag are preserved, pointwise and across the store — so
the creation-time tenant invariant is preserved by updates. -/
theorem noteTenantInvariant_spec (users : List User) (n : Note)
    (b : UpdateBody) (noteId : Nat) (notes : List Note) :
    (validateNewNote users n = Except.ok () ↔
      ∃ u, findUserById users n.author = some u ∧ u.tenantId = n.tenant)
    ∧ (applyUpdate n b).author = n.author
    ∧ (applyUpdate n b).tenant = n.tenant
    ∧ (applyUpdate n b).id = n.id
    ∧ (applyUpdate n b).isArchived = n.isArchived
    ∧ ((∃ u, findUserById users n.author = some u ∧ u.tenantId = n.tenant) →
        ∃ u, findUserById users (applyUpdate n b).author = some u
          ∧ u.tenantId = (applyUpdate n b).tenant)
    ∧ (∀ m ∈ updateNoteById notes noteId b, ∃ m0 ∈ notes,
        m.author = m0.author ∧ m.tenant = m0.tenant ∧ m.id = m0.id) := by
  refine ⟨?_, rfl, rfl, rfl, rfl, ?_, ?_⟩
  · unfold validateNewNote
    cases hu : findUserById users n.author with
    | none => simp
    | some u =>
      by_cases h : u.tenantId = n.tenant <;> simp [h]
  · intro h
    exact h
  · intro m hm
    simp only [updateNoteById, List.mem_map] at hm
    obtain ⟨m0, hm0, rfl⟩ := hm
    refine ⟨m0, hm0, ?_⟩
    by_cases h : (m0.id == noteId) = true <;> simp [h, applyUpdate]

/-- Witness for C6: saving a note whose tenant matches its author's tenant
succeeds, and the invariant survives an update that rewrites every payload
field. -/
theorem noteTenantInvariant_spec_witness :
    (validateNewNote [adminAcme] (acmeNote 11) = Except.ok () ↔
      ∃ u, findUserById [adminAcme] (acmeNote 11).author = some u
        ∧ u.tenantId = (acmeNote 11).tenant)
    ∧ ∃ u, findUserById [adminAcme]
          (applyUpdate (acmeNote 11)
            ⟨some "t2", some "c2", some ["a"]⟩).author = some u
        ∧ u.tenantId
          = (applyUpdate (acmeNote 11) ⟨some "t2", some "c2", some ["a"]⟩).tenant :=
  ⟨(noteTenantInvariant_spec [adminAcme] (acmeNote 11)
      ⟨some "t2", some "c2", some ["a"]⟩ 11 []).1,
   (noteTenantInvariant_spec [adminAcme] (acmeNote 11)
      ⟨some "t2", some "c2", some ["a"]⟩ 11 []).2.2.2.2.2.1
     ⟨adminAcme, by decide, by decide⟩⟩

/-- Claim C7: when a free-plan tenant's note count has reached `max_notes`,
a well-formed create request is rejected by the subscription gate with a 403
quota outcome and the note store is returned unchanged — the gate runs
before the store write. -/
theorem createNote_quota (t : Tenant) (actor : User) (users : List User)
    (notes : List Note) (b : NoteBody) (newId : Nat)
    (hplan : t.plan = Plan.free)
    (hcount : t.maxNotes ≤ (countNotesForTenant notes t.id : Int))
    (hbody : validNoteBody b = true) :
    createNote t actor users notes b newId
      = (CreateOutcome.quotaForbidden, notes)
    ∧ (createNote t actor users notes b newId).1.status = 403 := by
  have hgate : canCreateNote t notes = false := by
    simp [canCreateNote, hplan, decide_eq_false_iff_not, not_lt]
    omega
  have h : createNote t actor users notes b newId
      = (CreateOutcome.quotaForbidden, notes) := by
    simp [createNote, hbody, hgate]
  exact ⟨h, by rw [h]; rfl⟩

/-- Witness for C7: the acme admin's fourth note on the free plan is refused
with a quota 403 and no note is committed. -/
theorem createNote_quota_witness :
    createNote acme adminAcme [adminAcme] acmeNotes3
        ⟨"note 4", "body 4", []⟩ 14
      = (CreateOutcome.quotaForbidden, acmeNotes3)
    ∧ (createNote acme adminAcme [adminAcme] acmeNotes3
        ⟨"note 4", "body 4", []⟩ 14).1.status = 403 :=
  createNote_quota acme adminAcme [adminAcme] acmeNotes3
    ⟨"note 4", "body 4", []⟩ 14 (by decide) (by decide) (by decide)

/-- Claim C8: verifying a token issued from any claim set with the same
secret returns the original claims while the clock is before the expiry
instant, and fails with the invalid-token error once the expiry has been
reached or passed. -/
theorem token_roundtrip (c : Claims) (secret : String)
    (expiresIn now now2 : Nat) :
    (now2 < now + expiresIn →
      verifyToken (generateToken c secret expiresIn now) secret now2
        = Except.ok c)
    ∧ (now + expiresIn ≤ now2 →
      verifyToken (generateToken c secret expiresIn now) secret now2
        = Except.error "Invalid token") := by
  constructor
  · intro h
    simp [verifyToken, generateToken, Nat.not_le_of_lt h]
  · intro h
    simp [verifyToken, generateToken, h]

/-- Witness for C8: a token for the acme admin issued at time 0 with a
1-second expiry verifies at time 0 and fails at time 2. -/
theorem token_roundtrip_witness :
    verifyToken (generateToken claimsAcmeAdmin "secret" 1 0) "secret" 0
      = Except.ok claimsAcmeAdmin
    ∧ verifyToken (generateToken claimsAcmeAdmin "secret" 1 0) "secret" 2
      = Except.error "Invalid token" :=
  ⟨(token_roundtrip claimsAcmeAdmin "secret" 1 0 0).1 (by decide),
   (token_roundtrip claimsAcmeAdmin "secret" 1 0 2).2 (by decide)⟩

/-- Claim C9: an admin acting on their own record — asking for any role
other than admin, or deactivation — receives a 400 InvalidRequest outcome
and the user store is returned exactly as it was: the self checks compare
the target's id with the acting principal's id before any write. -/
theorem adminSelfProtection (tenants : List Tenant) (users : List User)
    (acting : User) (slug : String) (t : Tenant) (roleBody : String)
    (hslug : findTenantBySlug tenants slug = some t)
    (hmine : acting.tenantId = t.id)
    (hrole : acting.role = Role.admin)
    (hself : findUserInTenant users acting.id t.id = some acting)
    (hbody : roleBody ≠ "admin") :
    ((updateUserRole tenants users acting slug acting.id roleBody).1.status
        = 400
      ∧ (updateUserRole tenants users acting slug acting.id roleBody).2
        = users)
    ∧ deactivateUser tenants users acting slug acting.id
      = (AdminOutcome.selfProtect, users) := by
  constructor
  · by_cases h1 : roleBody = "admin"
    · exact absurd h1 hbody
    · by_cases h2 : roleBody = "member"
      · subst h2
        simp [updateUserRole, parseRole, hslug, hmine, hrole, hself,
          AdminOutcome.status]
      · simp [updateUserRole, parseRole, h1, h2, AdminOutcome.status]
  · simp [deactivateUser, hslug, hmine, hrole, hself]

/-- Witness for C9: the acme admin demoting themselves to member, or
deactivating themselves, gets 400 and the seeded user store is unchanged. -/
theorem adminSelfProtection_witness :
    ((updateUserRole [acme, globex] [adminAcme, memberAcme] adminAcme "acme"
        adminAcme.id "member").1.status = 400
      ∧ (updateUserRole [acme, globex] [adminAcme, memberAcme] adminAcme
          "acme" adminAcme.id "member").2 = [adminAcme, memberAcme])
    ∧ deactivateUser [acme, globex] [adminAcme, memberAcme] adminAcme "acme"
        adminAcme.id = (AdminOutcome.selfProtect, [adminAcme, memberAcme]) :=
  adminSelfProtection [acme, globex] [adminAcme, memberAcme] adminAcme "acme"
    acme "member" (by decide) (by decide) (by decide) (by decide) (by decide)

/-- Removing the first occurrence of a nonempty pattern from a list that
starts with that pattern leaves exactly the remainder. -/
theorem removeFirstOcc_append (pat rest : List Char) (h : pat ≠ []) :
    removeFirstOcc pat (pat ++ rest) = rest := by
  cases pat with
  | nil => exact absurd rfl h
  | cons p ps =>
    rw [List.cons_append, removeFirstOcc, ← List.cons_append,
      if_pos (List.isPrefixOf_iff_prefix.mpr (List.prefix_append _ _)),
      List.drop_left]

/-- Stripping the Bearer marker from a header of the documented form
`"Bearer " ++ tok` yields exactly `tok`. -/
theorem stripBearer_bearer (tok : String) :
    stripBearer ("Bearer " ++ tok) = tok := by
  unfold stripBearer
  rw [String.data_append]
  rw [removeFirstOcc_append _ _ (by decide)]

/-- Claim C10 (implicit): `authenticate` does not require the `"Bearer "`
marker — a header holding a bare token (one unaffected by the stripping)
behaves exactly as the documented `"Bearer <token>"` form, and the token
stage rejects precisely when the header is absent or its Bearer-stripped
value fails to decode (the empty string decodes for no JWT). -/
theorem authenticate_bearer_optional (decode : String → Option Claims)
    (users : List User) (tenants : List Tenant) (tok : String)
    (header : Option String)
    (hplain : stripBearer tok = tok) (hempty : decode "" = none) :
    authenticate decode users tenants (some tok)
      = authenticate decode users tenants (some ("Bearer " ++ tok))
    ∧ ((authenticate decode users tenants header = AuthOutcome.noToken
        ∨ authenticate decode users tenants header
          = AuthOutcome.invalidToken)
      ↔ decode (headerTokenValue header) = none) := by
  constructor
  · unfold authenticate extractHeaderToken
    dsimp only
    rw [stripBearer_bearer, hplain]
  · cases header with
    | none => simp [authenticate, extractHeaderToken, headerTokenValue, hempty]
    | some h =>
      by_cases he : stripBearer h = ""
      · simp [authenticate, extractHeaderToken, headerTokenValue, he, hempty]
      · cases hdec : decode (stripBearer h) with
        | none =>
          simp [authenticate, extractHeaderToken, headerTokenValue, he, hdec]
        | some c =>
          cases hu : findUserById users c.userId with
          | none =>
            simp [authenticate, extractHeaderToken, headerTokenValue, he,
              hdec, hu]
          | some u =>
            cases hact : u.isActive with
            | false =>
              simp [authenticate, extractHeaderToken, headerTokenValue, he,
                hdec, hu, hact]
            | true =>
              simp [authenticate, extractHeaderToken, headerTokenValue, he,
                hdec, hu, hact]

/-- Witness for C10: the bare fixture token authenticates identically to its
`"Bearer "`-prefixed form, and the token stage of an absent header is a
rejection. -/
theorem authenticate_bearer_optional_witness :
    authenticate decodeFix [adminAcme] [acme] (some "goodtok")
      = authenticate decodeFix [adminAcme] [acme] (some "Bearer goodtok")
    ∧ ((authenticate decodeFix [adminAcme] [acme] none = AuthOutcome.noToken
        ∨ authenticate decodeFix [adminAcme] [acme] none
          = AuthOutcome.invalidToken)
      ↔ decodeFix (headerTokenValue none) = none) :=
  authenticate_bearer_optional decodeFix [adminAcme] [acme] "goodtok" none
    (by decide) (by decide)

end SaaSNotes
